import Mathlib

/-!
# Verification of the tessera-sdk authentication / authorization core

Shallow embedding of the auth decision pipeline of `tessera_sdk`:

* `auth/token_handler.py` — multi-provider JWT verification (`TokenHandler.verify`,
  `TokenHandler.get_bearer_token`);
* `auth/api_key_handler.py` — API-key introspection (`APIKeyHandler.validate`);
* `middleware/authentication.py` — `AuthenticationMiddleware.dispatch` and
  `_validate_api_key`;
* `utils/authorization_dependency.py` — the `authorize(...)` guard factory with its
  decision cache;
* `utils/m2m_token.py` — the machine-token client (`get_token`, `_cache_token`).

Remote calls (identity introspection, JWKS fetch, JWT decode, Custos authorize,
OAuth token endpoint) are modelled by their outcome, passed in as an explicit
parameter; the shared `requests.Session` headers are modelled as an association
list threaded through each operation.  Cache expiry is not modelled: "within the
TTL window" is represented by the written entry still being present.
-/

namespace TesseraSdk

/-- A FastAPI/Starlette `HTTPException` (or `JSONResponse` error), reduced to its
status code and detail string. -/
structure HTTPError where
  status : Nat
  detail : String
deriving DecidableEq, Repr

/-- `base/exceptions.py`: `class UnauthorizedException(HTTPException)` — its
constructor docstring says "Returns HTTP 403" and it passes
`status_code=status.HTTP_403_FORBIDDEN`. -/
def unauthorizedException (detail : String) : HTTPError :=
  { status := 403, detail := detail }

/-! ## Token Validator — `auth/token_handler.py`, `TokenHandler.verify` -/

/-- A verified claim set (the decoded JWT payload), modelled as a string map. -/
abbrev Claims := List (String × String)

/-- Outcome of `provider["jwks_client"].get_signing_key_from_jwt(token).key` for
the token under verification: either the signing key, or one of the two caught
exception classes (`PyJWKClientError`, `DecodeError`) carrying its message. -/
inductive KeyFetch where
  | ok (key : String)
  | err (msg : String)

/-- One entry of `TokenHandler.self.providers`, specialised to the fixed token
being verified: the behaviour of its JWKS client on that token, and the
behaviour of `jwt.decode(token, signing_key, ...)` as a function of the fetched
signing key (any decode failure is caught with its message). -/
structure Provider where
  fetch : KeyFetch
  decode : String → Except String Claims

/-- Result of `TokenHandler.verify`: the decoded payload, or the raised
`UnauthorizedException`. -/
inductive VerifyResult where
  | ok (payload : Claims)
  | err (e : HTTPError)
deriving DecidableEq, Repr

/-- The `for provider in self.providers` loop of `TokenHandler.verify`, with the
running `last_error` message.  The second component counts how many providers
had `get_signing_key_from_jwt` invoked (the loop queries them front to back, so
the queried providers are exactly the first `n`). -/
def verifyLoop : List Provider → Option String → VerifyResult × Nat
  | [], lastError =>
    match lastError with
    | some m => (.err (unauthorizedException m), 0)
    | none => (.err (unauthorizedException "Unable to verify token"), 0)
  | p :: rest, _ =>
    match p.fetch with
    | .err m =>
      let r := verifyLoop rest (some m)
      (r.1, r.2 + 1)
    | .ok key =>
      match p.decode key with
      | .ok payload => (.ok payload, 1)
      | .error m =>
        let r := verifyLoop rest (some m)
        (r.1, r.2 + 1)

/-- `TokenHandler.verify(token)`.  `if not token: raise
UnauthorizedException(detail="Missing or invalid token")`, else the provider
loop. -/
def verify (token : String) (providers : List Provider) : VerifyResult :=
  if token = "" then .err (unauthorizedException "Missing or invalid token")
  else (verifyLoop providers none).1

/-- Number of providers whose JWKS client was queried during
`TokenHandler.verify(token)`. -/
def verifyQueriedCount (token : String) (providers : List Provider) : Nat :=
  if token = "" then 0
  else (verifyLoop providers none).2

/-- A provider that fails: either its key fetch raises one of the two caught
exceptions, or the fetch succeeds and `jwt.decode` fails. -/
def providerFails (p : Provider) : Prop :=
  (∃ m, p.fetch = .err m) ∨ (∃ k m, p.fetch = .ok k ∧ p.decode k = .error m)

/-- The error message a failing provider records into `last_error`. -/
def failMsg (p : Provider) : Option String :=
  match p.fetch with
  | .err m => some m
  | .ok k =>
    match p.decode k with
    | .error m => some m
    | .ok _ => none

/-- The value of `last_error` after the loop has run through `ps` (each element
failing), starting from `le`. -/
def recErr : List Provider → Option String → Option String
  | [], le => le
  | p :: rest, le =>
    recErr rest (match failMsg p with
      | some m => some m
      | none => le)

/-- Concrete provider whose key fetch raises (message "no kid A"). -/
def provA : Provider :=
  { fetch := .err "no kid A", decode := fun _ => .error "unreachable" }

/-- Concrete provider that verifies the token successfully with key kB. -/
def provB : Provider :=
  { fetch := .ok "kB", decode := fun _ => .ok [("sub", "user-1")] }

/-- Concrete provider that would also succeed, placed after provB. -/
def provC : Provider :=
  { fetch := .ok "kC", decode := fun _ => .ok [("sub", "other")] }

/-- Concrete provider whose signature check fails (message "bad decode D"). -/
def provD : Provider :=
  { fetch := .ok "kD", decode := fun _ => .error "bad decode D" }

/-- The HTTP status carried by a failed verification, if any. -/
def errStatus : VerifyResult → Option Nat
  | .ok _ => none
  | .err e => some e.status

/-! ## Python string primitives

Character-list implementations of the Python `str` methods the source uses
(`startswith`, slicing, `strip`, `lower`, `split(" ", 1)`), so that every
definition evaluates by kernel reduction. -/

/-- Python `s.startswith(pre)`. -/
def pyStartsWith (s pre : String) : Bool :=
  pre.data.isPrefixOf s.data

/-- Python `s[n:]`. -/
def pyDrop (s : String) (n : Nat) : String :=
  ⟨s.data.drop n⟩

/-- ASCII lowercase of one character (Python `str.lower` on header text). -/
def pyLowerChar (c : Char) : Char :=
  if c.toNat ≥ 65 ∧ c.toNat ≤ 90 then Char.ofNat (c.toNat + 32) else c

/-- Python `s.lower()`. -/
def pyLower (s : String) : String :=
  ⟨s.data.map pyLowerChar⟩

/-- Whitespace stripped by Python `str.strip()`. -/
def pyIsSpace (c : Char) : Bool :=
  c = ' ' ∨ c = '\t' ∨ c = '\n' ∨ c = '\r'

/-- Python `s.strip()`. -/
def pyStrip (s : String) : String :=
  ⟨((s.data.dropWhile pyIsSpace).reverse.dropWhile pyIsSpace).reverse⟩

/-- Split a character list at its first space, when one exists. -/
def splitAtFirstSpace : List Char → Option (List Char × List Char)
  | [] => none
  | c :: rest =>
    if c = ' ' then some ([], rest)
    else (splitAtFirstSpace rest).map (fun p => (c :: p.1, p.2))

/-- Python `s.split(" ", 1)`: at most one split, at the first space. -/
def splitFirstSpace (s : String) : List String :=
  match splitAtFirstSpace s.data with
  | none => [s]
  | some (l, r) => [⟨l⟩, ⟨r⟩]

/-! ## Bearer extraction — `auth/token_handler.py`, `TokenHandler.get_bearer_token` -/

/-- `TokenHandler.get_bearer_token(headers)`, over the two header spellings the
code probes (`headers.get("authorization")`, falling back to
`headers.get("Authorization")` when the first is missing or falsy).  The scheme
check is case-insensitive (`strip().lower().startswith("bearer ")`); on failure
the empty string is returned, never an exception. -/
def getBearerToken (authLower authCanon : Option String) : String :=
  let authorization :=
    match authLower with
    | some v => if v = "" then authCanon else some v
    | none => authCanon
  match authorization with
  | none => ""
  | some v =>
    if v = "" then ""
    else if pyStartsWith (pyLower (pyStrip v)) "bearer " then
      match splitFirstSpace (pyStrip v) with
      | [p0, p1] => if pyLower p0 = "bearer" then pyStrip p1 else ""
      | _ => ""
    else ""

/-! ## Shared transport state — `requests.Session().headers` -/

/-- The mutable session-header mapping of an HTTP client, as an association
list. -/
abbrev SessionHeaders := List (String × String)

/-- `session.headers.update({k: v})`: set the key, replacing any existing
entry. -/
def headersSet (hs : SessionHeaders) (k v : String) : SessionHeaders :=
  (k, v) :: hs.filter (fun kv => kv.1 != k)

/-- `if k in session.headers: del session.headers[k]`. -/
def headersDel (hs : SessionHeaders) (k : String) : SessionHeaders :=
  hs.filter (fun kv => kv.1 != k)

/-- Header lookup. -/
def headersGet (hs : SessionHeaders) (k : String) : Option String :=
  (hs.find? (fun kv => kv.1 == k)).map (fun kv => kv.2)

/-! ## API-Key Validator — `auth/api_key_handler.py` and
`middleware/authentication.py` (`_validate_api_key`) -/

/-- The principal object embedded in an introspection response
(`introspect_response.user`). -/
structure PrincipalObj where
  userRef : String
deriving DecidableEq, Repr

/-- The Identies error taxonomy the callers catch, plus a catch-all for
non-Identies exceptions. -/
inductive IdentiesErr where
  | authentication
  | validation (msg : String)
  | clientError
  | serverError
  | identies
  | other
deriving DecidableEq, Repr

/-- Outcome of `self.identies_client.introspect()`: a parsed response with its
active flag and embedded user, or a raised error. -/
inductive Introspect where
  | response (active : Bool) (user : PrincipalObj)
  | raises (e : IdentiesErr)
deriving DecidableEq, Repr

/-- Result of `APIKeyHandler.validate`: returns `False`, returns the principal,
or propagates the exception raised by `introspect()`. -/
inductive ApiKeyValidateResult where
  | returnsFalse
  | returnsUser (u : PrincipalObj)
  | raises (e : IdentiesErr)
deriving DecidableEq, Repr

/-- `APIKeyHandler.validate(api_key)` with the introspect outcome supplied;
returns the result together with the identity client's session headers after
the call.  Mirroring the source, the `X-API-Key` header is removed only inside
the `introspect_response.active` branch: the inactive branch returns `False`
with the header still set, and a raised error propagates with the header still
set. -/
def apiKeyHandlerValidate (apiKey : String) (introspect : Introspect)
    (hs : SessionHeaders) : ApiKeyValidateResult × SessionHeaders :=
  if apiKey = "" then (.returnsFalse, hs)
  else
    let hs1 := headersSet hs "X-API-Key" apiKey
    match introspect with
    | .raises e => (.raises e, hs1)
    | .response active user =>
      if active then (.returnsUser user, headersDel hs1 "X-API-Key")
      else (.returnsFalse, hs1)

/-- Result of `AuthenticationMiddleware._validate_api_key`: either the wrapped
handler ran (`call_next`, with `request.state.user` set to the principal) or a
`JSONResponse` error. -/
inductive MwApiKeyResult where
  | callNext (user : PrincipalObj)
  | jsonResponse (status : Nat) (error : String)
deriving DecidableEq, Repr

/-- `AuthenticationMiddleware._validate_api_key(request, api_key, call_next)`:
the same introspection flow, but wrapped in `try`/`except`/`finally`, the
`finally` clause stripping `X-API-Key` from the session headers on every exit
path. -/
def mwValidateApiKey (apiKey : String) (introspect : Introspect)
    (hs : SessionHeaders) : MwApiKeyResult × SessionHeaders :=
  let hs1 := headersSet hs "X-API-Key" apiKey
  let out : MwApiKeyResult :=
    match introspect with
    | .response active user =>
      if active then .callNext user
      else .jsonResponse 401 "Invalid or inactive API key"
    | .raises .authentication => .jsonResponse 401 "Invalid API key"
    | .raises (.validation m) =>
      .jsonResponse 400 ("API key validation error: " ++ m)
    | .raises .clientError =>
      .jsonResponse 503 "Authentication service temporarily unavailable"
    | .raises .serverError =>
      .jsonResponse 503 "Authentication service temporarily unavailable"
    | .raises .identies => .jsonResponse 500 "Internal authentication error"
    | .raises .other => .jsonResponse 500 "Internal server error"
  (out, headersDel hs1 "X-API-Key")

/-! ## Authentication Orchestrator — `middleware/authentication.py`,
`AuthenticationMiddleware.dispatch` -/

/-- Outcome of `verify_token_dependency` as `dispatch` observes it: either it
returns with `request.state.user` set (possibly to `None`), or it raises an
`HTTPException` with some status code. -/
inductive TokenVerifyOutcome where
  | setsUser (user : Option PrincipalObj)
  | raises (status : Nat)
deriving DecidableEq, Repr

/-- A request as the middleware sees it: the URL path and the
(case-insensitively resolved) `X-API-Key` and `Authorization` header values. -/
structure MwRequest where
  path : String
  xApiKey : Option String
  authorization : Option String
deriving DecidableEq, Repr

/-- Terminal outcome of `dispatch`: pass the request on, or answer with a JSON
error body. -/
inductive DispatchOutcome where
  | next
  | response (status : Nat) (error : String)
deriving DecidableEq, Repr

/-- `dispatch` outcome plus which validation path ran: whether the API-key
validation branch was entered, and whether `verify_token_dependency` (JWT
verification) was invoked. -/
structure DispatchResult where
  outcome : DispatchOutcome
  apiKeyPathTaken : Bool
  jwtVerifyAttempted : Bool
deriving DecidableEq, Repr

/-- `AuthenticationMiddleware.dispatch(request, call_next)`.  Skip-path check,
then `X-API-Key` (truthy) routes to `_validate_api_key`; otherwise the
`Authorization` value must start with the case-sensitive literal prefix
`Bearer ` or the request is rejected 401 before any verification; otherwise the
stripped token goes to `verify_token_dependency`.  An `HTTPException` with a
status other than 401/403 falls through the handler-less `except` branch and
continues to `call_next`, mirroring the source. -/
def dispatch (skipPaths : List String) (req : MwRequest)
    (introspect : Introspect) (tokenVerify : TokenVerifyOutcome)
    (hs : SessionHeaders) : DispatchResult × SessionHeaders :=
  if skipPaths.any (fun sp => pyStartsWith req.path sp) then
    (⟨.next, false, false⟩, hs)
  else if (req.xApiKey.getD "") ≠ "" then
    let r := mwValidateApiKey (req.xApiKey.getD "") introspect hs
    let out : DispatchOutcome :=
      match r.1 with
      | .callNext _ => .next
      | .jsonResponse s e => .response s e
    (⟨out, true, false⟩, r.2)
  else
    match req.authorization with
    | none => (⟨.response 401 "Missing or invalid token", false, false⟩, hs)
    | some a =>
      if pyStartsWith a "Bearer " then
        let out : DispatchOutcome :=
          match tokenVerify with
          | .setsUser (some _) => .next
          | .setsUser none => .response 401 "User not found"
          | .raises 401 => .response 401 "Invalid token"
          | .raises 403 => .response 403 "Forbidden"
          | .raises _ => .next
        (⟨out, false, true⟩, hs)
      else (⟨.response 401 "Missing or invalid token", false, false⟩, hs)

/-! ## Authorization guard — `utils/authorization_dependency.py` -/

/-- Result of `_extract_auth_token`. -/
inductive TokenExtract where
  | ok (token : String)
  | err (e : HTTPError)
deriving DecidableEq, Repr

/-- `_extract_auth_token(request)`: 401 when the Authorization header is
missing or falsy; strip a leading `Bearer ` if present; otherwise return the
raw header value unchanged. -/
def extractAuthToken (authorization : Option String) : TokenExtract :=
  match authorization with
  | none => .err { status := 401, detail := "Missing Authorization header" }
  | some a =>
    if a = "" then .err { status := 401, detail := "Missing Authorization header" }
    else if pyStartsWith a "Bearer " then .ok (pyDrop a 7)
    else .ok a

/-- The `request.state.user` shapes the guard probes: `user.id` first, then
`user.user_id` (each may be absent or `None`). -/
structure GuardUser where
  localId : Option String
  altId : Option String
deriving DecidableEq, Repr

/-- The Python dict stored in the decision cache.  The write path stores
literally one key, `allowed`; the read path probes the key `authorized` with
default `False`.  Both possible keys are modelled so write and read can be
composed. -/
structure CacheDict where
  authorized : Option Bool
  allowed : Option Bool
deriving DecidableEq, Repr

/-- The decision cache contents (namespace `authorization`); expiry is not
modelled, an entry being present means its TTL has not elapsed. -/
abbrev AuthzCache := List (String × CacheDict)

/-- `cache.read(key)`. -/
def authzCacheRead (c : AuthzCache) (k : String) : Option CacheDict :=
  (c.find? (fun kv => kv.1 == k)).map (fun kv => kv.2)

/-- `cache.write(key, value, ttl)`: overwrite wholesale. -/
def authzCacheWrite (c : AuthzCache) (k : String) (v : CacheDict) : AuthzCache :=
  (k, v) :: c.filter (fun kv => kv.1 != k)

/-- Outcome of `custos_client.authorize(...)`: a parsed response with its
`allowed` flag, or one of the raised Custos error classes. -/
inductive CustosOutcome where
  | ok (allowed : Bool)
  | authenticationError
  | validationError (msg : String)
  | clientError
  | serverError
  | custosError
deriving DecidableEq, Repr

/-- Outcome of the `domain_resolver(request)` await: a domain string, a
re-raised `HTTPException`, or another exception (wrapped to 400 by the
guard). -/
inductive DomainResolve where
  | ok (domain : String)
  | httpExc (e : HTTPError)
  | exc (msg : String)
deriving DecidableEq, Repr

/-- What one invocation of the guard dependency produced: `True`, or a raised
`HTTPException`. -/
inductive DepOutcome where
  | ok (value : Bool)
  | raises (e : HTTPError)
deriving DecidableEq, Repr

/-- One invocation of the guard: its outcome, the decision-cache contents
afterwards, and whether Custos was called. -/
structure DepResult where
  outcome : DepOutcome
  cache : AuthzCache
  custosCalled : Bool
deriving DecidableEq, Repr

/-- The `authorization_dependency` closure produced by
`authorize(action, resource, domain_resolver)`, with every remote outcome
supplied: token extraction, user probing, domain resolution, the Custos URL
setting, the cache-enabled flag (`_get_authorization_cache()` returning a cache
or `None`), the prior cache contents, and the Custos call outcome.  The cache
read probes the dict key `authorized` (default `False`); the write after a
fresh Custos decision stores a dict holding only the key `allowed`, exactly as
the source does. -/
def authorizationDependency (action resource : String)
    (authorization : Option String) (user : Option GuardUser)
    (domainResolve : DomainResolve) (custosApiUrl : Option String)
    (cacheEnabled : Bool) (cache0 : AuthzCache)
    (custos : CustosOutcome) : DepResult :=
  match extractAuthToken authorization with
  | .err e => ⟨.raises e, cache0, false⟩
  | .ok _ =>
    match user with
    | none => ⟨.raises { status := 401, detail := "User not authenticated" }, cache0, false⟩
    | some u =>
      match (match u.localId with | some i => some i | none => u.altId) with
      | none => ⟨.raises { status := 401, detail := "User ID not found" }, cache0, false⟩
      | some uid =>
        match (match domainResolve with
          | .ok d => Except.ok d
          | .httpExc e => Except.error e
          | .exc m => Except.error { status := 400, detail := "Cannot infer domain: " ++ m }) with
        | .error e => ⟨.raises e, cache0, false⟩
        | .ok domain =>
          match custosApiUrl with
          | none => ⟨.raises { status := 500, detail := "Custos service not configured" }, cache0, false⟩
          | some _ =>
            let cacheKey := uid ++ ":" ++ action ++ ":" ++ resource ++ ":" ++ domain
            match (if cacheEnabled then authzCacheRead cache0 cacheKey else none) with
            | some d =>
              if d.authorized.getD false then ⟨.ok true, cache0, false⟩
              else ⟨.raises { status := 403, detail := "Access denied" }, cache0, false⟩
            | none =>
              match custos with
              | .ok allowed =>
                if allowed then
                  ⟨.ok true,
                    if cacheEnabled then
                      authzCacheWrite cache0 cacheKey { authorized := none, allowed := some true }
                    else cache0,
                    true⟩
                else
                  ⟨.raises { status := 403, detail := "Access denied" },
                    if cacheEnabled then
                      authzCacheWrite cache0 cacheKey { authorized := none, allowed := some false }
                    else cache0,
                    true⟩
              | .authenticationError =>
                ⟨.raises { status := 401, detail := "Authentication failed" }, cache0, true⟩
              | .validationError m =>
                ⟨.raises { status := 400, detail := "Validation error: " ++ m }, cache0, true⟩
              | .clientError =>
                ⟨.raises { status := 503, detail := "Authorization service unavailable" }, cache0, true⟩
              | .serverError =>
                ⟨.raises { status := 503, detail := "Authorization service unavailable" }, cache0, true⟩
              | .custosError =>
                ⟨.raises { status := 500, detail := "Authorization check failed" }, cache0, true⟩

/-! ## Machine-token client — `utils/m2m_token.py` -/

/-- `M2MTokenResponse`: the validated token-endpoint response. -/
structure M2MToken where
  accessToken : String
  tokenType : String
  expiresIn : Int
  scope : Option String
deriving DecidableEq, Repr

/-- The TTL computed by `M2MTokenClient._cache_token`:
`max(expires_in - buffer_seconds, 1)`. -/
def cacheTokenTtl (expiresIn bufferSeconds : Int) : Int :=
  max (expiresIn - bufferSeconds) 1

/-- The machine-token cache: key to (deserialized response, TTL written). -/
abbrev M2MCache := List (String × M2MToken × Int)

/-- `M2MTokenClient._get_cached_token`: read and deserialize, `None` on miss
(read errors also degrade to `None`). -/
def m2mCacheRead (c : M2MCache) (k : String) : Option M2MToken :=
  (c.find? (fun kv => kv.1 == k)).map (fun kv => kv.2.1)

/-- `M2MTokenClient._cache_token`: write the response with the buffered TTL.
This method exists in the source but is never invoked by `get_token`. -/
def cacheToken (tok : M2MToken) (bufferSeconds : Int) (k : String)
    (c : M2MCache) : M2MCache :=
  (k, tok, cacheTokenTtl tok.expiresIn bufferSeconds) :: c.filter (fun kv => kv.1 != k)

/-- `M2MTokenClient._generate_cache_key(client_id, audience)`. -/
def generateCacheKey (clientId audience : String) : String :=
  "m2m_token:" ++ clientId ++ ":" ++ audience

/-- One `get_token` call: the returned token, the cache afterwards, and whether
the token endpoint was hit. -/
structure GetTokenResult where
  token : M2MToken
  cache : M2MCache
  networkCalled : Bool
deriving DecidableEq, Repr

/-- `M2MTokenClient.get_token` with the fresh-fetch outcome supplied: unless
`force_refresh`, a cache hit returns the cached response with no network call;
otherwise `_request_token` runs and its response is returned.  Mirroring the
source, no cache write happens on any path of `get_token`. -/
def getToken (forceRefresh : Bool) (cache : M2MCache) (cacheKey : String)
    (fresh : M2MToken) : GetTokenResult :=
  if forceRefresh = false then
    match m2mCacheRead cache cacheKey with
    | some tok => ⟨tok, cache, false⟩
    | none => ⟨fresh, cache, true⟩
  else ⟨fresh, cache, true⟩

end TesseraSdk

namespace TesseraSdk

/-! ## Theorems about the Token Validator -/

/-- Helper: a failing provider always records an error message. -/
theorem failMsg_isSome_of_fails (p : Provider) (h : providerFails p) :
    ∃ m, failMsg p = some m := by
  rcases h with ⟨m, hm⟩ | ⟨k, m, hk, hm⟩
  · exact ⟨m, by simp [failMsg, hm]⟩
  · exact ⟨m, by simp [failMsg, hk, hm]⟩

/-- Helper: on an all-failing list, the loop ends with the recorded last error
(or the generic message when none was ever recorded). -/
theorem verifyLoop_all_fail (ps : List Provider) (le : Option String)
    (hall : ∀ p ∈ ps, providerFails p) :
    (verifyLoop ps le).1 =
      match recErr ps le with
      | some m => .err (unauthorizedException m)
      | none => .err (unauthorizedException "Unable to verify token") := by
  induction ps generalizing le with
  | nil => cases le <;> rfl
  | cons p rest ih =>
    have hp : providerFails p := hall p (List.mem_cons_self p rest)
    have hrest : ∀ q ∈ rest, providerFails q := fun q hq => hall q (List.mem_cons_of_mem p hq)
    rcases hp with ⟨m, hm⟩ | ⟨k, m, hk, hm⟩
    · simp only [verifyLoop, hm, recErr, failMsg]
      exact ih (some m) hrest
    · simp only [verifyLoop, hk, hm, recErr, failMsg]
      exact ih (some m) hrest

/-- Helper: on a nonempty all-failing list, the recorded last error is the
message of the last provider. -/
theorem recErr_all_fail (ps : List Provider) (le : Option String)
    (hall : ∀ p ∈ ps, providerFails p) (hne : ps ≠ []) :
    recErr ps le = ps.getLast?.bind failMsg := by
  induction ps generalizing le with
  | nil => exact absurd rfl hne
  | cons p rest ih =>
    have hp : providerFails p := hall p (List.mem_cons_self p rest)
    obtain ⟨m, hm⟩ := failMsg_isSome_of_fails p hp
    have step : recErr (p :: rest) le = recErr rest (some m) := by
      show recErr rest (match failMsg p with | some m' => some m' | none => le) = _
      rw [hm]
    cases rest with
    | nil =>
      rw [step]
      simp [recErr, hm]
    | cons q rest2 =>
      have hrest : ∀ r ∈ q :: rest2, providerFails r :=
        fun r hr => hall r (List.mem_cons_of_mem p hr)
      rw [step, ih (some m) hrest (by simp), List.getLast?_cons_cons]

/-- C8: when every descriptor fails, TokenHandler.verify fails with the last
recorded error — the error from the last descriptor tried — and with the
generic "Unable to verify token" message when the provider list is empty, so no
descriptor ever attempted a verification. -/
theorem tokenHandler_verify_all_fail (tok : String) (providers : List Provider)
    (htok : tok ≠ "")
    (hall : ∀ p ∈ providers, providerFails p) :
    verify tok providers =
      .err (unauthorizedException
        ((providers.getLast?.bind failMsg).getD "Unable to verify token")) := by
  unfold verify
  rw [if_neg htok]
  rw [verifyLoop_all_fail providers none hall]
  cases providers with
  | nil => simp [recErr]
  | cons p rest =>
    have hne : p :: rest ≠ [] := by simp
    rw [recErr_all_fail _ none hall hne]
    rw [List.getLast?_eq_getLast_of_ne_nil hne]
    obtain ⟨m, hm⟩ :=
      failMsg_isSome_of_fails _ (hall _ (List.getLast_mem hne))
    simp [hm]

/-- C8 witness: with providers [provA (key fetch fails), provD (decode fails)],
verify fails with provD's message, the last recorded error. -/
theorem tokenHandler_verify_all_fail_witness :
    verify "tok" [provA, provD] =
      .err { status := 403, detail := "bad decode D" } := by
  have h := tokenHandler_verify_all_fail "tok" [provA, provD] (by decide)
    (by
      intro p hp
      rcases List.mem_cons.mp hp with h1 | hp2
      · subst h1
        exact Or.inl ⟨"no kid A", rfl⟩
      · rcases List.mem_cons.mp hp2 with h2 | h3
        · subst h2
          exact Or.inr ⟨"kD", "bad decode D", rfl, rfl⟩
        · simp at h3)
  simpa [provA, provD, failMsg, unauthorizedException] using h

end TesseraSdk

namespace TesseraSdk

/-- Helper: the loop returns the first succeeding provider's payload and
queries exactly the providers up to and including it. -/
theorem verifyLoop_first_success (pre post : List Provider) (B : Provider)
    (key : String) (payload : Claims) (le : Option String)
    (hpre : ∀ p ∈ pre, providerFails p)
    (hfetch : B.fetch = .ok key) (hdec : B.decode key = .ok payload) :
    verifyLoop (pre ++ B :: post) le = (.ok payload, pre.length + 1) := by
  induction pre generalizing le with
  | nil =>
    show verifyLoop (B :: post) le = _
    simp [verifyLoop, hfetch, hdec]
  | cons p rest ih =>
    have hp := hpre p (List.mem_cons_self p rest)
    have hrest : ∀ q ∈ rest, providerFails q :=
      fun q hq => hpre q (List.mem_cons_of_mem p hq)
    rcases hp with ⟨m, hm⟩ | ⟨k, m, hk, hm⟩
    · show verifyLoop (p :: (rest ++ B :: post)) le = _
      simp only [verifyLoop, hm]
      rw [ih (some m) hrest]
      simp [List.length_cons]
    · show verifyLoop (p :: (rest ++ B :: post)) le = _
      simp only [verifyLoop, hk, hm]
      rw [ih (some m) hrest]
      simp [List.length_cons]

/-- C5: TokenHandler.verify tries the configured descriptors strictly in order
and returns the first successful verification's claim set immediately; only the
descriptors up to and including the first success have their signing-key source
queried, so the descriptors after it are never consulted. -/
theorem tokenHandler_verify_first_success (tok : String) (pre post : List Provider)
    (B : Provider) (key : String) (payload : Claims)
    (htok : tok ≠ "")
    (hpre : ∀ p ∈ pre, providerFails p)
    (hfetch : B.fetch = .ok key) (hdec : B.decode key = .ok payload) :
    verify tok (pre ++ B :: post) = .ok payload ∧
      verifyQueriedCount tok (pre ++ B :: post) = pre.length + 1 := by
  unfold verify verifyQueriedCount
  rw [if_neg htok, if_neg htok,
    verifyLoop_first_success pre post B key payload none hpre hfetch hdec]
  exact ⟨rfl, rfl⟩

/-- C5 witness: with providers [provA (fails), provB (succeeds), provC],
provB's claims come back and only the first two providers are queried — provC's
signing-key source is never touched. -/
theorem tokenHandler_verify_first_success_witness :
    verify "tok" [provA, provB, provC] = .ok [("sub", "user-1")] ∧
      verifyQueriedCount "tok" [provA, provB, provC] = 2 := by
  have h := tokenHandler_verify_first_success "tok" [provA] [provC] provB "kB"
    [("sub", "user-1")] (by decide)
    (by
      intro p hp
      rcases List.mem_cons.mp hp with h1 | h1
      · subst h1
        exact Or.inl ⟨"no kid A", rfl⟩
      · simp at h1)
    rfl rfl
  simpa using h

/-- C6 counterexample: for the empty token, TokenHandler.verify raises
UnauthorizedException, whose HTTP status is 403 — not the 401 the claim
requires for the missing-credential failure. -/
theorem tokenHandler_verify_empty_status_counterexample :
    errStatus (verify "" [provA]) = some 403 ∧
      errStatus (verify "" [provA]) ≠ some 401 := by
  constructor
  · rfl
  · intro h
    simp [verify, errStatus, unauthorizedException] at h

/-- C6 (amended): for the empty token string, TokenHandler.verify fails
immediately with the missing-credential error ("Missing or invalid token",
raised as UnauthorizedException, which carries HTTP status 403 rather than
401), before any provider is queried — so the failure is not a decode error. -/
theorem tokenHandler_verify_empty_token (providers : List Provider) :
    verify "" providers =
        .err { status := 403, detail := "Missing or invalid token" } ∧
      verifyQueriedCount "" providers = 0 :=
  ⟨rfl, rfl⟩

end TesseraSdk

namespace TesseraSdk

/-! ## Theorems about the API-Key Validator and the shared transport state -/

/-- Helper: deleting a header really removes every entry with that key. -/
theorem headersGet_headersDel (hs : SessionHeaders) (k : String) :
    headersGet (headersDel hs k) k = none := by
  unfold headersGet headersDel
  have hfind : (hs.filter (fun kv => kv.1 != k)).find? (fun kv => kv.1 == k) = none := by
    rw [List.find?_eq_none]
    intro kv hkv
    have hmem := List.mem_filter.mp hkv
    simpa using hmem.2
  rw [hfind]
  rfl

/-- The middleware's `_validate_api_key` leaves no trace of the key on any
path: its `finally` clause strips `X-API-Key` unconditionally. -/
theorem mwValidateApiKey_strips_key (apiKey : String) (introspect : Introspect)
    (hs : SessionHeaders) :
    headersGet (mwValidateApiKey apiKey introspect hs).2 "X-API-Key" = none := by
  unfold mwValidateApiKey
  exact headersGet_headersDel _ "X-API-Key"

/-- C2 (code bug): after `APIKeyHandler.validate` returns `False` on an
inactive key — and likewise when `introspect()` raises — the `X-API-Key`
header is still present in the identity client's session headers, because the
cleanup line sits inside the `active` branch only.  The middleware's own
`_validate_api_key`, by contrast, strips the key on the same denial. -/
theorem apiKeyHandler_validate_leaves_key_on_denial :
    headersGet (apiKeyHandlerValidate "key-1"
        (.response false { userRef := "u" }) []).2 "X-API-Key" = some "key-1" ∧
      (apiKeyHandlerValidate "key-1" (.response false { userRef := "u" }) []).1 =
        .returnsFalse ∧
      headersGet (apiKeyHandlerValidate "key-1"
        (.raises .serverError) []).2 "X-API-Key" = some "key-1" ∧
      headersGet (mwValidateApiKey "key-1"
        (.response false { userRef := "u" }) []).2 "X-API-Key" = none := by
  decide

end TesseraSdk

namespace TesseraSdk

/-! ## Theorems about the authorization guard and its decision cache -/

/-- C1 (code bug): with caching enabled, a first `authorize` call whose Custos
decision is allowed writes the entry under the dict key `allowed`, and the
second call within the TTL window is served from cache with no Custos call —
but the read path probes the dict key `authorized` with default `False`, so the
cached allow comes back as a 403 "Access denied" instead of the allow the
first call returned. -/
theorem authorization_cached_allow_returns_403 :
    (authorizationDependency "read" "doc" (some "Bearer t")
        (some { localId := some "p", altId := none }) (.ok "d:1")
        (some "https://custos") true [] (.ok true)).outcome = .ok true ∧
      (authorizationDependency "read" "doc" (some "Bearer t")
        (some { localId := some "p", altId := none }) (.ok "d:1")
        (some "https://custos") true [] (.ok true)).custosCalled = true ∧
      (authorizationDependency "read" "doc" (some "Bearer t")
        (some { localId := some "p", altId := none }) (.ok "d:1")
        (some "https://custos") true
        (authorizationDependency "read" "doc" (some "Bearer t")
          (some { localId := some "p", altId := none }) (.ok "d:1")
          (some "https://custos") true [] (.ok true)).cache
        (.ok true)).custosCalled = false ∧
      (authorizationDependency "read" "doc" (some "Bearer t")
        (some { localId := some "p", altId := none }) (.ok "d:1")
        (some "https://custos") true
        (authorizationDependency "read" "doc" (some "Bearer t")
          (some { localId := some "p", altId := none }) (.ok "d:1")
          (some "https://custos") true [] (.ok true)).cache
        (.ok true)).outcome = .raises { status := 403, detail := "Access denied" } := by
  decide

/-- C4 (code bug): `get_token` on a cache miss returns the fresh token from the
network but writes nothing to the cache — `_cache_token` is never invoked —
while the TTL formula of the orphaned `_cache_token` itself does match the
specified `max(expires_in - buffer_seconds, 1)`: 60 for (120, 60) and the floor
1 for (30, 60). -/
theorem m2m_get_token_miss_writes_nothing :
    (getToken false [] (generateCacheKey "client-1" "aud-1")
        { accessToken := "tok", tokenType := "Bearer", expiresIn := 120, scope := none }).cache
        = [] ∧
      (getToken false [] (generateCacheKey "client-1" "aud-1")
        { accessToken := "tok", tokenType := "Bearer", expiresIn := 120, scope := none }).networkCalled
        = true ∧
      cacheTokenTtl 120 60 = 60 ∧ cacheTokenTtl 30 60 = 1 := by
  decide

end TesseraSdk

namespace TesseraSdk

/-! ## Theorems about the Authentication Orchestrator -/

/-- C3 counterexample: a request whose bearer token value starts with the
reserved service-token prefix is routed into JWT verification, not the API-key
path — `dispatch` contains no check on the token value's prefix. -/
theorem dispatch_ak_bearer_goes_to_jwt_counterexample :
    ((dispatch ["/health", "/openapi.json", "/docs"]
        { path := "/protected", xApiKey := none, authorization := some "Bearer ak_123" }
        (.response true { userRef := "u" }) (.raises 401) []).1).jwtVerifyAttempted = true ∧
      ((dispatch ["/health", "/openapi.json", "/docs"]
        { path := "/protected", xApiKey := none, authorization := some "Bearer ak_123" }
        (.response true { userRef := "u" }) (.raises 401) []).1).apiKeyPathTaken = false := by
  decide

/-- C3 (amended): the orchestrator applies no special routing to bearer tokens
with the reserved service-token prefix — any Authorization value starting with
"Bearer " (including one whose token begins with the reserved prefix) goes
through JWT verification and never through the API-key validation path; only an
X-API-Key header selects the API-key path. -/
theorem dispatch_bearer_routes_to_jwt (skipPaths : List String) (req : MwRequest)
    (introspect : Introspect) (tv : TokenVerifyOutcome) (hs : SessionHeaders)
    (hskip : skipPaths.any (fun sp => pyStartsWith req.path sp) = false)
    (hkey : req.xApiKey.getD "" = "")
    (a : String) (ha : req.authorization = some a)
    (hbearer : pyStartsWith a "Bearer " = true) :
    ((dispatch skipPaths req introspect tv hs).1).jwtVerifyAttempted = true ∧
      ((dispatch skipPaths req introspect tv hs).1).apiKeyPathTaken = false := by
  unfold dispatch
  simp [hskip, hkey, ha, hbearer]

/-- C3 witness: the amended routing at the concrete ak_-prefixed bearer
request. -/
theorem dispatch_bearer_routes_to_jwt_witness :
    ((dispatch ["/health", "/openapi.json", "/docs"]
        { path := "/protected", xApiKey := none, authorization := some "Bearer ak_999" }
        (.response true { userRef := "u" }) (.setsUser (some { userRef := "u" })) []).1).jwtVerifyAttempted
        = true ∧
      ((dispatch ["/health", "/openapi.json", "/docs"]
        { path := "/protected", xApiKey := none, authorization := some "Bearer ak_999" }
        (.response true { userRef := "u" }) (.setsUser (some { userRef := "u" })) []).1).apiKeyPathTaken
        = false :=
  dispatch_bearer_routes_to_jwt ["/health", "/openapi.json", "/docs"]
    { path := "/protected", xApiKey := none, authorization := some "Bearer ak_999" }
    (.response true { userRef := "u" }) (.setsUser (some { userRef := "u" })) []
    (by decide) (by decide) "Bearer ak_999" rfl (by decide)

/-- C9: with no X-API-Key and a non-skipped path, an Authorization value that
does not begin with the case-sensitive literal "Bearer " is answered 401 with
body error "Missing or invalid token" and no token verification is attempted —
even though the standalone extractor get_bearer_token accepts the lowercase
scheme "bearer " and returns the token. -/
theorem dispatch_requires_case_sensitive_bearer (skipPaths : List String)
    (req : MwRequest) (introspect : Introspect) (tv : TokenVerifyOutcome)
    (hs : SessionHeaders)
    (hskip : skipPaths.any (fun sp => pyStartsWith req.path sp) = false)
    (hkey : req.xApiKey.getD "" = "")
    (a : String) (ha : req.authorization = some a)
    (hbearer : pyStartsWith a "Bearer " = false) :
    (dispatch skipPaths req introspect tv hs).1 =
      { outcome := .response 401 "Missing or invalid token",
        apiKeyPathTaken := false, jwtVerifyAttempted := false } ∧
      getBearerToken (some "bearer abc") none = "abc" := by
  constructor
  · unfold dispatch
    simp [hskip, hkey, ha, hbearer]
  · decide

/-- C9 witness: the lowercase scheme "bearer abc" at the concrete request. -/
theorem dispatch_requires_case_sensitive_bearer_witness :
    (dispatch ["/health", "/openapi.json", "/docs"]
        { path := "/protected", xApiKey := none, authorization := some "bearer abc" }
        (.response true { userRef := "u" }) (.setsUser (some { userRef := "u" })) []).1 =
      { outcome := .response 401 "Missing or invalid token",
        apiKeyPathTaken := false, jwtVerifyAttempted := false } ∧
      getBearerToken (some "bearer abc") none = "abc" :=
  dispatch_requires_case_sensitive_bearer ["/health", "/openapi.json", "/docs"]
    { path := "/protected", xApiKey := none, authorization := some "bearer abc" }
    (.response true { userRef := "u" }) (.setsUser (some { userRef := "u" })) []
    (by decide) (by decide) "bearer abc" rfl (by decide)

end TesseraSdk

namespace TesseraSdk

/-- C7: when the Custos call raises a server-classified (5xx) error, the guard
raises 503 "Authorization service unavailable" and the decision cache is left
exactly as it was — no verdict entry is written by the failed call — while the
downstream service was indeed called once. -/
theorem authorization_server_error_503_cache_unwritten
    (action resource a uid dom url : String)
    (user : GuardUser) (cacheEnabled : Bool) (cache0 : AuthzCache)
    (ha : a ≠ "")
    (hu : user.localId = some uid)
    (hmiss : authzCacheRead cache0
      (uid ++ ":" ++ action ++ ":" ++ resource ++ ":" ++ dom) = none) :
    authorizationDependency action resource (some a) (some user) (.ok dom)
        (some url) cacheEnabled cache0 .serverError =
      { outcome := .raises { status := 503, detail := "Authorization service unavailable" },
        cache := cache0, custosCalled := true } := by
  cases hpb : pyStartsWith a "Bearer " <;>
    cases cacheEnabled <;>
      simp [authorizationDependency, extractAuthToken, ha, hpb, hu, hmiss]

/-- C7 witness: the concrete server-error run with an empty cache. -/
theorem authorization_server_error_503_cache_unwritten_witness :
    authorizationDependency "read" "doc" (some "Bearer t")
        (some { localId := some "p", altId := none }) (.ok "d:1")
        (some "https://custos") true [] .serverError =
      { outcome := .raises { status := 503, detail := "Authorization service unavailable" },
        cache := [], custosCalled := true } :=
  authorization_server_error_503_cache_unwritten "read" "doc" "Bearer t" "p"
    "d:1" "https://custos" { localId := some "p", altId := none } true []
    (by decide) rfl (by decide)

/-- C10 counterexample: an Authorization header that is present but empty does
not start with "Bearer ", yet the guard rejects it with 401 — so a 401 is not
reserved to a completely missing header, and the raw value is not forwarded. -/
theorem extract_auth_token_empty_value_counterexample :
    extractAuthToken (some "") =
        .err { status := 401, detail := "Missing Authorization header" } ∧
      pyStartsWith "" "Bearer " = false := by
  decide

/-- C10 (amended): a present and nonempty Authorization value that does not
start with "Bearer " is not rejected — the entire raw value is returned as the
forwarded credential; a missing or empty Authorization header yields the 401
"Missing Authorization header". -/
theorem extract_auth_token_forwards_raw (a : String) (hne : a ≠ "")
    (hnb : pyStartsWith a "Bearer " = false) :
    extractAuthToken (some a) = .ok a ∧
      extractAuthToken none =
        .err { status := 401, detail := "Missing Authorization header" } ∧
      extractAuthToken (some "") =
        .err { status := 401, detail := "Missing Authorization header" } := by
  refine ⟨?_, rfl, by decide⟩
  unfold extractAuthToken
  simp [hne, hnb]

/-- C10 witness: the raw scheme-less value "Basic xyz" is forwarded whole. -/
theorem extract_auth_token_forwards_raw_witness :
    extractAuthToken (some "Basic xyz") = .ok "Basic xyz" ∧
      extractAuthToken none =
        .err { status := 401, detail := "Missing Authorization header" } ∧
      extractAuthToken (some "") =
        .err { status := 401, detail := "Missing Authorization header" } :=
  extract_auth_token_forwards_raw "Basic xyz" (by decide) (by decide)

end TesseraSdk
